import Mathlib

set_option linter.unusedVariables false

/-!
Shallow embedding of the Crazyflie reinforcement-learning environment
(`crazyflie.py`): the reward/termination function
`compute_crazyflie_reward`, the observation writer
`compute_observations`, the target-assignment policy `set_targets`, the
reset policy `reset_idx`, and the force/torque pipeline of
`pre_physics_step`.

All batched tensor operations in the source act independently on each
environment index, so the state is modelled as functions from the
environment index (`ℕ`) to per-environment data.  Floating-point
arithmetic is modelled exactly over `ℚ` (real-arithmetic semantics of
the source expressions); the one irrational operation, `torch.sqrt` in
the distance computation, is carried as the squared distance, since the
source uses the distance only through `d * d` and through the comparison
`d > 0.5`, both of which are expressed from the square (the bridge to
the literal `Real.sqrt` form is proved where a claim mentions the
distance itself).
-/

namespace Crazyflie

/-- A 3-component float vector (one row of an `(N, 3)` tensor). -/
@[ext]
structure Vec3 where
  x : ℚ
  y : ℚ
  z : ℚ
deriving DecidableEq, Repr

instance : Add Vec3 := ⟨fun a b => ⟨a.x + b.x, a.y + b.y, a.z + b.z⟩⟩

instance : Zero Vec3 := ⟨⟨0, 0, 0⟩⟩

theorem Vec3.add_def (a b : Vec3) : a + b = ⟨a.x + b.x, a.y + b.y, a.z + b.z⟩ := rfl

theorem Vec3.zero_def : (0 : Vec3) = ⟨0, 0, 0⟩ := rfl

/-- A quaternion in the source's `(x, y, z, w)` component order
(`root_quats = root_states[:, 3:7]`). -/
@[ext]
structure Quat where
  x : ℚ
  y : ℚ
  z : ℚ
  w : ℚ
deriving DecidableEq, Repr

/-- Embedding of `quat_rotate(q, v)` from `isaacgymenvs.utils.torch_jit_utils`:
`v * (2 w² - 1) + 2 w (q_vec × v) + 2 q_vec (q_vec · v)`. -/
def quat_rotate (q : Quat) (v : Vec3) : Vec3 :=
  let s := 2 * q.w ^ 2 - 1
  let d := q.x * v.x + q.y * v.y + q.z * v.z
  ⟨v.x * s + (q.y * v.z - q.z * v.y) * q.w * 2 + q.x * d * 2,
   v.y * s + (q.z * v.x - q.x * v.z) * q.w * 2 + q.y * d * 2,
   v.z * s + (q.x * v.y - q.y * v.x) * q.w * 2 + q.z * d * 2⟩

/-- Embedding of `quat_axis(q, 2)` from `torch_jit_utils`: rotate the basis vector
`(0, 0, 1)` by `q`. -/
def quat_axis_z (q : Quat) : Vec3 :=
  quat_rotate q ⟨0, 0, 1⟩

/-- Embedding of `torch.square(target_root_positions - root_positions).sum(-1)`:
the squared Euclidean distance between drone and target.  The source
then takes `target_dist = torch.sqrt` of this value; downstream
`target_dist` is used only as `target_dist * target_dist` and in the
comparison `target_dist > 0.5`, so the embedding carries the square. -/
def target_dist_sq (root_positions target_root_positions : Vec3) : ℚ :=
  (target_root_positions.x - root_positions.x) ^ 2 +
  (target_root_positions.y - root_positions.y) ^ 2 +
  (target_root_positions.z - root_positions.z) ^ 2

/-- One environment's slice of `compute_crazyflie_reward` (the
`@torch.jit.script` function at the bottom of `crazyflie.py`).  Returns
`(reward, reset)` for that environment.  `reset_buf` enters the source
only through `torch.ones_like` / `torch.zeros_like` (shape and dtype,
never values) and `root_linvels` is unused, so neither argument occurs
in the body.  The comparison `target_dist > 0.5` is embedded as
`0.5 ^ 2 < target_dist_sq` (equivalent for the nonnegative
`target_dist`, see `sqrt_target_dist_gt_half_iff`). -/
def compute_crazyflie_reward (root_positions target_root_positions : Vec3)
    (root_quats : Quat) (root_linvels root_angvels : Vec3)
    (reset_buf : ℤ) (progress_buf : ℤ) (max_episode_length : ℚ) : ℚ × ℤ :=
  -- distance to target
  let dist_sq := target_dist_sq root_positions target_root_positions
  let pos_reward : ℚ := 1 / (1 + dist_sq)
  -- uprightness (computed but unused in the combined reward)
  let ups := quat_axis_z root_quats
  let tiltage := |1 - ups.z|
  let up_reward : ℚ := 1 / (1 + tiltage * tiltage)
  -- spinning (computed but unused in the combined reward)
  let spinnage := |root_angvels.z|
  let spinnage_reward : ℚ := 1 / (1 + spinnage * spinnage)
  -- combined reward: pos_reward only (the weighted combination is commented out)
  let reward := pos_reward
  -- resets due to misbehavior
  let ones : ℤ := 1
  let die0 : ℤ := 0
  let die1 : ℤ := if (0.5 : ℚ) ^ 2 < dist_sq then ones else die0
  let die2 : ℤ := if root_positions.z < 0.3 then ones else die1
  -- resets due to episode length
  let reset : ℤ := if max_episode_length - 1 ≤ (progress_buf : ℚ) then ones else die2
  (reward, reset)

/-- Component access for a `Vec3`, for indexing observation slices. -/
def Vec3.comp (v : Vec3) : ℕ → ℚ
  | 0 => v.x
  | 1 => v.y
  | 2 => v.z
  | _ => 0

/-- Component access for a `Quat` in the source's `(x, y, z, w)` order. -/
def Quat.comp (q : Quat) : ℕ → ℚ
  | 0 => q.x
  | 1 => q.y
  | 2 => q.z
  | 3 => q.w
  | _ => 0

/-- Python's `math.pi`: the IEEE-754 double closest to π,
`884279719003555 / 2^48`. -/
def mathPi : ℚ := 884279719003555 / 281474976710656

/-- One environment's slice of `compute_observations`.  The source
writes `obs_buf[..., 0:3] = (target_root_positions - root_positions)/3`,
`[..., 3:7] = root_quats`, `[..., 7:10] = root_linvels / 2`,
`[..., 10:13] = root_angvels / math.pi`; the remaining components (the
environment declares `num_observations = 36`) are not assigned and keep
their previous contents. -/
def compute_observations (root_positions target_root_positions : Vec3)
    (root_quats : Quat) (root_linvels root_angvels : Vec3)
    (obs_buf : Fin 36 → ℚ) : Fin 36 → ℚ :=
  fun j =>
    if j.val < 3 then
      (target_root_positions.comp j.val - root_positions.comp j.val) / 3
    else if j.val < 7 then root_quats.comp (j.val - 3)
    else if j.val < 10 then root_linvels.comp (j.val - 7) / 2
    else if j.val < 13 then root_angvels.comp (j.val - 10) / mathPi
    else obs_buf j

/-! ### Force/torque pipeline of `pre_physics_step`

`bodies_per_env = 2`: body `0` is the drone's base, body `1` the
marker body.  The `friction` tensor has shape `(N, 2, 3)`, initialized
to zeros, and each step only its row `[:, 0, :]` is assigned.  The
controller outputs (`common_thrust`, `total_torque`) are external
collaborators; they are taken as inputs, with `common_thrust` given the
contract shape matching the force buffer (spec §7 records the source's
shape mismatch here as a latent defect to fix, not behavior to keep). -/

/-- Embedding of `torch.sign`, componentwise on floats: `1` for positive, `-1` for
negative, `0` for zero. -/
def sign (q : ℚ) : ℚ := if 0 < q then 1 else if q < 0 then -1 else 0

/-- Embedding of `-0.02 * torch.sign(root_linvels) * root_linvels ** 2`,
componentwise: the quadratic drag written into `friction[:, 0, :]`. -/
def frictionForce (v : Vec3) : Vec3 :=
  ⟨-0.02 * sign v.x * v.x ^ 2,
   -0.02 * sign v.y * v.y ^ 2,
   -0.02 * sign v.z * v.z ^ 2⟩

/-- Embedding of `self.friction[:, 0, :] = -0.02*torch.sign(...)*...**2` for one
environment: body `0` is overwritten, body `1` keeps its previous value
(it is never assigned; it stays at its zero initialization). -/
def updateFriction (friction : Fin 2 → Vec3) (root_linvels : Vec3) :
    Fin 2 → Vec3 :=
  fun b => if b = 0 then frictionForce root_linvels else friction b

/-- Embedding of `self.friction = torch.zeros((num_envs, bodies_per_env, 3), ...)`,
one environment's slice. -/
def initialFriction : Fin 2 → Vec3 := fun _ => 0

/-- The per-environment `(force, torque)` pair handed to
`gym.apply_rigid_body_force_tensors`. -/
structure AppliedWrench where
  force : Fin 2 → Vec3
  torque : Vec3

/-- One environment's slice of the force/torque block of
`pre_physics_step`: update the friction row, form
`forces = common_thrust + friction`, zero the forces of environments
whose `reset_buf` was nonzero at the start of the step
(`self.forces[reset_env_ids] = 0.0`), and hand `(forces, total_torque)`
to the physics engine.  `reset_buf` is the value read at line
`reset_env_ids = self.reset_buf.nonzero(...)`, before `reset_idx`
clears it. -/
def prePhysicsWrench (common_thrust : Fin 2 → Vec3) (total_torque : Vec3)
    (friction : Fin 2 → Vec3) (root_linvels : Vec3) (reset_buf : ℤ) :
    AppliedWrench :=
  let friction' := updateFriction friction root_linvels
  let forces : Fin 2 → Vec3 := fun b => common_thrust b + friction' b
  let forces' : Fin 2 → Vec3 := fun b => if reset_buf ≠ 0 then 0 else forces b
  { force := forces', torque := total_torque }

/-! ### Target-assignment and reset policy

`crazyflie.py` defines `set_targets` twice; the second definition (the
random near-origin targets) shadows the first (the circle layout), so
only the second is embedded.

The random draws of `torch.rand` are modelled by an oracle supplying,
for each selected environment, the fresh uniform `[0, 1)` samples that
the source draws for it (`rand(num_sets, 2)` for x/y and
`rand(num_sets)` for z); two distinct calls to `set_targets` receive
two distinct oracles.  The `env_ids` arguments always come from
`torch.nonzero`, so they are duplicate-free index lists. -/

/-- The uniform `[0, 1)` samples one selected environment receives in
one `set_targets` call. -/
structure Draw where
  rx : ℚ
  ry : ℚ
  rz : ℚ
deriving DecidableEq, Repr

/-- The target value `set_targets` writes for one selected environment:
`x, y = rand * 0.001` and `z = rand * 0.01 + 1`. -/
def drawnTarget (d : Draw) : Vec3 :=
  ⟨d.rx * 0.001, d.ry * 0.001, d.rz * 0.01 + 1⟩

/-- One actor's 13-component root state: `[:, 0:3]` position,
`[:, 3:7]` orientation quaternion, `[:, 7:10]` linear velocity,
`[:, 10:13]` angular velocity. -/
@[ext]
structure RootState where
  pos : Vec3
  quat : Quat
  linvel : Vec3
  angvel : Vec3
deriving DecidableEq, Repr

/-- The per-environment mutable state the target/reset policy touches,
as functions from the environment index.  `initRoot` is
`initial_root_states` (cloned once at construction; never written by
the policy), `root` the drone slice `root_states` of the live root
tensor, `marker` the marker slice's position columns. -/
@[ext]
structure SimState where
  target : ℕ → Vec3
  marker : ℕ → Vec3
  root : ℕ → RootState
  initRoot : ℕ → RootState
  resetBuf : ℕ → ℤ
  progressBuf : ℕ → ℤ

/-- Embedding of `torch_rand_float(lower, upper, ...)` from `torch_jit_utils`:
`(upper - lower) * rand + lower` for a uniform sample `r ∈ [0, 1)`. -/
def torch_rand_float (lower upper r : ℚ) : ℚ := (upper - lower) * r + lower

/-- Drone actor index of environment `e`:
`all_actor_indices = arange(2 N).reshape(N, 2)`, column `0`. -/
def droneActorIndex (e : ℕ) : ℤ := 2 * e

/-- Marker actor index of environment `e`: column `1` of
`all_actor_indices`. -/
def markerActorIndex (e : ℕ) : ℤ := 2 * e + 1

/-- Embedding of `set_targets(env_ids)` (the second, live definition): write
`rand * 0.001` into the x/y and `rand * 0.01 + 1` into the z of
`target_root_positions[env_ids]`, mirror those rows into
`marker_positions[env_ids]`, and return
`all_actor_indices[env_ids, 1].flatten()` (the marker actor indices).
`r e` is the oracle's sample triple for environment `e`. -/
def set_targets (st : SimState) (env_ids : List ℕ) (r : ℕ → Draw) :
    SimState × List ℤ :=
  let newTarget : ℕ → Vec3 := fun e =>
    if e ∈ env_ids then drawnTarget (r e) else st.target e
  let newMarker : ℕ → Vec3 := fun e =>
    if e ∈ env_ids then newTarget e else st.marker e
  ({ st with target := newTarget, marker := newMarker },
   env_ids.map markerActorIndex)

/-- Insert into a sorted list (ascending). -/
def insertSorted (x : ℤ) : List ℤ → List ℤ
  | [] => [x]
  | y :: ys => if x ≤ y then x :: y :: ys else y :: insertSorted x ys

/-- Insertion sort, ascending. -/
def sortInts (l : List ℤ) : List ℤ := l.foldr insertSorted []

/-- Embedding of `torch.unique`: the distinct elements in sorted order. -/
def torchUnique (l : List ℤ) : List ℤ := sortInts l.dedup

/-- Embedding of `reset_idx(env_ids)`: re-draw the targets of `env_ids` (delegating
to `set_targets`), copy `initial_root_states[env_ids]` back into
`root_states[env_ids]` with `torch_rand_float(-0, 0, ...)` perturbations
added to the three position components (a degenerate `[−0, 0]` range),
zero `reset_buf[env_ids]` and `progress_buf[env_ids]`, and return
`torch.unique` of the concatenated marker and drone actor indices.
`r` is the draw oracle passed to `set_targets`; `rr e` holds the three
`torch_rand_float` uniform samples for environment `e`. -/
def reset_idx (st : SimState) (env_ids : List ℕ) (r : ℕ → Draw)
    (rr : ℕ → Vec3) : SimState × List ℤ :=
  let afterTargets := set_targets st env_ids r
  let st1 := afterTargets.1
  let target_actor_indices := afterTargets.2
  let actor_indices := env_ids.map droneActorIndex
  let newRoot : ℕ → RootState := fun e =>
    if e ∈ env_ids then
      let r0 := st.initRoot e
      { r0 with
        pos := ⟨r0.pos.x + torch_rand_float (-0) 0 (rr e).x,
                r0.pos.y + torch_rand_float (-0) 0 (rr e).y,
                r0.pos.z + torch_rand_float (-0) 0 (rr e).z⟩ }
    else st1.root e
  let newResetBuf : ℕ → ℤ := fun e => if e ∈ env_ids then 0 else st1.resetBuf e
  let newProgressBuf : ℕ → ℤ := fun e =>
    if e ∈ env_ids then 0 else st1.progressBuf e
  ({ st1 with
      root := newRoot, resetBuf := newResetBuf, progressBuf := newProgressBuf },
   torchUnique (target_actor_indices ++ actor_indices))

/-- Embedding of `set_target_ids = (progress_buf % 500 == 0).nonzero(...)`: the
environments due for the periodic target re-draw, read from the
incoming state. -/
def setTargetIds (numEnvs : ℕ) (st : SimState) : List ℕ :=
  (List.range numEnvs).filter (fun e => st.progressBuf e % 500 == 0)

/-- Embedding of `reset_env_ids = reset_buf.nonzero(...)`: the environments whose
reset flag is set, read from the incoming state. -/
def resetEnvIds (numEnvs : ℕ) (st : SimState) : List ℕ :=
  (List.range numEnvs).filter (fun e => st.resetBuf e != 0)

/-- The reset-resolution phase at the top of `pre_physics_step`,
instrumented with traces.  Both index lists are read from the incoming
state, before any mutation, and the calls are guarded by
`len(...) > 0`.  The first trace records the `env_ids` of every
`set_targets` call in order (the direct periodic call, then the one
`reset_idx` makes internally); the second trace records the `env_ids`
of every root-state reset (`reset_idx` call).  `r1` is the draw oracle
of the periodic call, `r2` the one of the call inside `reset_idx`. -/
def prePhysicsResets (numEnvs : ℕ) (st : SimState) (r1 r2 : ℕ → Draw)
    (rr : ℕ → Vec3) : SimState × List (List ℕ) × List (List ℕ) :=
  let afterTargets :=
    if (setTargetIds numEnvs st).length > 0 then
      (set_targets st (setTargetIds numEnvs st) r1).1
    else st
  let targetTrace1 : List (List ℕ) :=
    if (setTargetIds numEnvs st).length > 0 then [setTargetIds numEnvs st]
    else []
  let afterResets :=
    if (resetEnvIds numEnvs st).length > 0 then
      (reset_idx afterTargets (resetEnvIds numEnvs st) r2 rr).1
    else afterTargets
  let targetTrace2 : List (List ℕ) :=
    if (resetEnvIds numEnvs st).length > 0 then [resetEnvIds numEnvs st]
    else []
  let resetTrace : List (List ℕ) :=
    if (resetEnvIds numEnvs st).length > 0 then [resetEnvIds numEnvs st]
    else []
  (afterResets, targetTrace1 ++ targetTrace2, resetTrace)

/-- Number of times a trace's recorded calls include environment `e`. -/
def callCount (trace : List (List ℕ)) (e : ℕ) : ℕ :=
  trace.countP (fun ids => ids.contains e)

/-! ### Helper lemmas -/

theorem target_dist_sq_nonneg (p t : Vec3) : 0 ≤ target_dist_sq p t := by
  unfold target_dist_sq
  positivity

/-- Bridge between the source's comparison `target_dist > 0.5` (on the
square root) and the embedding's comparison on the squared distance. -/
theorem sqrt_gt_half_iff (s : ℚ) (hs : 0 ≤ s) :
    (0.5 : ℝ) < Real.sqrt (s : ℝ) ↔ (0.5 : ℚ) ^ 2 < s := by
  rw [Real.lt_sqrt (by norm_num)]
  have hh : ((0.5 : ℚ) : ℝ) = 0.5 := by norm_num
  rw [← hh]
  constructor
  · intro h
    exact_mod_cast h
  · intro h
    exact_mod_cast h

/-- The first component of `compute_crazyflie_reward` is
`1 / (1 + target_dist_sq)`. -/
theorem reward_fst (p t : Vec3) (q : Quat) (v a : Vec3) (rb pr : ℤ)
    (m : ℚ) :
    (compute_crazyflie_reward p t q v a rb pr m).1 =
      1 / (1 + target_dist_sq p t) := rfl

/-! ### Claim theorems -/

/-- C1: for every environment, the reward/termination function sets the
reset flag to `1` if and only if the distance to the target exceeds
`0.5`, or the drone's height is below `0.3`, or the progress counter has
reached `max_episode_length - 1`; otherwise it sets the flag to `0`. -/
theorem reset_flag_spec (p t : Vec3) (q : Quat) (v a : Vec3) (rb pr : ℤ)
    (m : ℚ) :
    ((compute_crazyflie_reward p t q v a rb pr m).2 = 1 ↔
      ((0.5 : ℝ) < Real.sqrt ((target_dist_sq p t : ℚ) : ℝ) ∨
        p.z < 0.3 ∨ m - 1 ≤ (pr : ℚ))) ∧
    ((compute_crazyflie_reward p t q v a rb pr m).2 = 0 ↔
      ¬((0.5 : ℝ) < Real.sqrt ((target_dist_sq p t : ℚ) : ℝ) ∨
        p.z < 0.3 ∨ m - 1 ≤ (pr : ℚ))) := by
  have hb := sqrt_gt_half_iff (target_dist_sq p t) (target_dist_sq_nonneg p t)
  simp only [compute_crazyflie_reward, hb]
  by_cases hC : m - 1 ≤ (pr : ℚ) <;> by_cases hB : p.z < 0.3 <;>
    by_cases hA : (0.5 : ℚ) ^ 2 < target_dist_sq p t <;>
    simp [hA, hB, hC]

/-- C2: the reward equals `1 / (1 + d²)` where `d` is the Euclidean
distance between drone and target; it always lies in `(0, 1]`, and it
is monotonically decreasing in the distance. -/
theorem reward_value_bounds_mono
    (p1 t1 : Vec3) (q1 : Quat) (v1 a1 : Vec3) (rb1 pr1 : ℤ) (m1 : ℚ)
    (p2 t2 : Vec3) (q2 : Quat) (v2 a2 : Vec3) (rb2 pr2 : ℤ) (m2 : ℚ)
    (h : Real.sqrt ((target_dist_sq p1 t1 : ℚ) : ℝ) ≤
      Real.sqrt ((target_dist_sq p2 t2 : ℚ) : ℝ)) :
    (((compute_crazyflie_reward p1 t1 q1 v1 a1 rb1 pr1 m1).1 : ℝ) =
        1 / (1 + Real.sqrt ((target_dist_sq p1 t1 : ℚ) : ℝ) ^ 2)) ∧
    0 < (compute_crazyflie_reward p1 t1 q1 v1 a1 rb1 pr1 m1).1 ∧
    (compute_crazyflie_reward p1 t1 q1 v1 a1 rb1 pr1 m1).1 ≤ 1 ∧
    (compute_crazyflie_reward p2 t2 q2 v2 a2 rb2 pr2 m2).1 ≤
      (compute_crazyflie_reward p1 t1 q1 v1 a1 rb1 pr1 m1).1 := by
  have hs1 := target_dist_sq_nonneg p1 t1
  have hs2 := target_dist_sq_nonneg p2 t2
  have hpos1 : (0 : ℚ) < 1 + target_dist_sq p1 t1 := by linarith
  have hpos2 : (0 : ℚ) < 1 + target_dist_sq p2 t2 := by linarith
  refine ⟨?_, ?_, ?_, ?_⟩
  · rw [reward_fst, Real.sq_sqrt (by exact_mod_cast hs1)]
    push_cast
    ring
  · rw [reward_fst]
    positivity
  · rw [reward_fst]
    rw [div_le_one hpos1]
    linarith
  · have hss : target_dist_sq p1 t1 ≤ target_dist_sq p2 t2 := by
      have := (Real.sqrt_le_sqrt_iff (y := ((target_dist_sq p2 t2 : ℚ) : ℝ))
        (by exact_mod_cast hs2)).mp h
      exact_mod_cast this
    rw [reward_fst, reward_fst]
    exact one_div_le_one_div_of_le hpos1 (by linarith)

/-- Witness for `reward_value_bounds_mono` at concrete inputs: distance
`0` versus distance `1`. -/
theorem reward_value_bounds_mono_witness :
    Real.sqrt ((target_dist_sq ⟨0, 0, 0⟩ ⟨0, 0, 0⟩ : ℚ) : ℝ) ≤
      Real.sqrt ((target_dist_sq ⟨0, 0, 0⟩ ⟨1, 0, 0⟩ : ℚ) : ℝ) ∧
    ((((compute_crazyflie_reward ⟨0, 0, 0⟩ ⟨0, 0, 0⟩ ⟨0, 0, 0, 1⟩ ⟨0, 0, 0⟩
        ⟨0, 0, 0⟩ 0 0 500).1 : ℚ) : ℝ) =
        1 / (1 + Real.sqrt ((target_dist_sq ⟨0, 0, 0⟩ ⟨0, 0, 0⟩ : ℚ) : ℝ) ^ 2)) ∧
    0 < (compute_crazyflie_reward ⟨0, 0, 0⟩ ⟨0, 0, 0⟩ ⟨0, 0, 0, 1⟩ ⟨0, 0, 0⟩
        ⟨0, 0, 0⟩ 0 0 500).1 ∧
    (compute_crazyflie_reward ⟨0, 0, 0⟩ ⟨0, 0, 0⟩ ⟨0, 0, 0, 1⟩ ⟨0, 0, 0⟩
        ⟨0, 0, 0⟩ 0 0 500).1 ≤ 1 ∧
    (compute_crazyflie_reward ⟨0, 0, 0⟩ ⟨1, 0, 0⟩ ⟨0, 0, 0, 1⟩ ⟨0, 0, 0⟩
        ⟨0, 0, 0⟩ 0 0 500).1 ≤
      (compute_crazyflie_reward ⟨0, 0, 0⟩ ⟨0, 0, 0⟩ ⟨0, 0, 0, 1⟩ ⟨0, 0, 0⟩
        ⟨0, 0, 0⟩ 0 0 500).1 := by
  have h : Real.sqrt ((target_dist_sq ⟨0, 0, 0⟩ ⟨0, 0, 0⟩ : ℚ) : ℝ) ≤
      Real.sqrt ((target_dist_sq ⟨0, 0, 0⟩ ⟨1, 0, 0⟩ : ℚ) : ℝ) := by
    apply Real.sqrt_le_sqrt
    norm_num [target_dist_sq]
  exact ⟨h, reward_value_bounds_mono ⟨0, 0, 0⟩ ⟨0, 0, 0⟩ ⟨0, 0, 0, 1⟩ ⟨0, 0, 0⟩
    ⟨0, 0, 0⟩ 0 0 500 ⟨0, 0, 0⟩ ⟨1, 0, 0⟩ ⟨0, 0, 0, 1⟩ ⟨0, 0, 0⟩ ⟨0, 0, 0⟩
    0 0 500 h⟩

/-- C9: the outputs of the reward/termination function do not depend on
the linear-velocity argument nor on the values held in the incoming
reset buffer: two calls differing only in those inputs return the same
reward and the same reset flag. -/
theorem reward_ignores_linvels_resetbuf (p t : Vec3) (q : Quat)
    (a : Vec3) (pr : ℤ) (m : ℚ) (v v' : Vec3) (rb rb' : ℤ) :
    compute_crazyflie_reward p t q v a rb pr m =
      compute_crazyflie_reward p t q v' a rb' pr m := rfl

/-- C10: although 36 observation components are declared,
`compute_observations` writes only components 0–12; components 13–35
keep the incoming buffer's values, and the written components do not
depend on the incoming buffer at all. -/
theorem observations_frame (p t : Vec3) (q : Quat) (v a : Vec3)
    (obs obs' : Fin 36 → ℚ) :
    (∀ j : Fin 36, 13 ≤ j.val →
      compute_observations p t q v a obs j = obs j) ∧
    (∀ j : Fin 36, j.val < 13 →
      compute_observations p t q v a obs j =
        compute_observations p t q v a obs' j) := by
  constructor
  · intro j hj
    unfold compute_observations
    rw [if_neg (by omega), if_neg (by omega), if_neg (by omega),
      if_neg (by omega)]
  · intro j hj
    unfold compute_observations
    split_ifs <;> first | rfl | omega

/-- Witness for `observations_frame`: component 20 of the buffer is
untouched. -/
theorem observations_frame_witness :
    13 ≤ (20 : Fin 36).val ∧
    compute_observations ⟨0, 0, 1⟩ ⟨0, 0, 1⟩ ⟨0, 0, 0, 1⟩ ⟨0, 0, 0⟩ ⟨0, 0, 0⟩
      (fun _ => 5) (20 : Fin 36) = 5 :=
  ⟨by decide,
   (observations_frame ⟨0, 0, 1⟩ ⟨0, 0, 1⟩ ⟨0, 0, 0, 1⟩ ⟨0, 0, 0⟩ ⟨0, 0, 0⟩
      (fun _ => 5) (fun _ => 5)).1 (20 : Fin 36) (by decide)⟩

/-- C3 counterexample: an environment whose reset flag is set still has
the controller's torque handed to the physics engine unmodified — with
controller torque `(1, 0, 0)` the applied torque is not zero, so "both
the force and the torque … are zero" fails. -/
theorem wrench_reset_claim_counterexample :
    (1 : ℤ) ≠ 0 ∧
    ¬((∀ b, (prePhysicsWrench (fun _ => 0) ⟨1, 0, 0⟩ initialFriction
        ⟨0, 0, 0⟩ 1).force b = 0) ∧
      (prePhysicsWrench (fun _ => 0) ⟨1, 0, 0⟩ initialFriction
        ⟨0, 0, 0⟩ 1).torque = 0) := by
  refine ⟨by decide, fun hc => ?_⟩
  have := hc.2
  simp [prePhysicsWrench, Vec3.zero_def] at this

/-- C3 (amended): for an environment whose reset flag is set at the
start of `pre_physics_step`, the force handed to the physics engine is
zero for every body, while the torque is the controller's torque,
handed over unmodified. -/
theorem wrench_reset_zeroes_forces_only (th : Fin 2 → Vec3) (tq : Vec3)
    (fr : Fin 2 → Vec3) (v : Vec3) (rb : ℤ) (hrb : rb ≠ 0) :
    (∀ b, (prePhysicsWrench th tq fr v rb).force b = 0) ∧
    (prePhysicsWrench th tq fr v rb).torque = tq := by
  refine ⟨fun b => ?_, rfl⟩
  simp [prePhysicsWrench, hrb]

/-- Witness for `wrench_reset_zeroes_forces_only` at reset flag `1`. -/
theorem wrench_reset_zeroes_forces_only_witness :
    (1 : ℤ) ≠ 0 ∧
    ((∀ b, (prePhysicsWrench (fun _ => ⟨1, 2, 3⟩) ⟨4, 5, 6⟩
        initialFriction ⟨1, -1, 0⟩ 1).force b = 0) ∧
      (prePhysicsWrench (fun _ => ⟨1, 2, 3⟩) ⟨4, 5, 6⟩ initialFriction
        ⟨1, -1, 0⟩ 1).torque = ⟨4, 5, 6⟩) :=
  ⟨by decide,
   wrench_reset_zeroes_forces_only (fun _ => ⟨1, 2, 3⟩) ⟨4, 5, 6⟩
     initialFriction ⟨1, -1, 0⟩ 1 (by decide)⟩

/-- C7 counterexample: for an environment whose reset flag is set, the
force handed to the physics engine is zero, not the controller's thrust
plus friction — with thrust `(1, 0, 0)` and zero velocity the claimed
sum is `(1, 0, 0)` while the applied force is `0`. -/
theorem wrench_force_claim_counterexample :
    (prePhysicsWrench (fun _ => ⟨1, 0, 0⟩) 0 initialFriction ⟨0, 0, 0⟩
        1).force 0 ≠
      (fun _ => (⟨1, 0, 0⟩ : Vec3)) 0 +
        updateFriction initialFriction ⟨0, 0, 0⟩ 0 := by
  intro h
  have hx := congrArg Vec3.x h
  norm_num [prePhysicsWrench, updateFriction, initialFriction,
    frictionForce, sign, Vec3.add_def, Vec3.zero_def] at hx
  exact absurd hx (by decide)

/-- C7 (amended): for every environment whose reset flag is not set,
the force handed to the physics engine equals the controller's thrust
plus the friction row, where the friction on the primary body (body 0)
is `-0.02 * sign(v) * v²` componentwise in the linear velocity and the
friction on the other body is zero (its zero initialization is never
overwritten). -/
theorem wrench_force_formula (th : Fin 2 → Vec3) (tq : Vec3)
    (fr : Fin 2 → Vec3) (v : Vec3) (rb : ℤ) (hrb : rb = 0)
    (hfr : fr 1 = 0) :
    (∀ b, (prePhysicsWrench th tq fr v rb).force b =
      th b + updateFriction fr v b) ∧
    updateFriction fr v 0 =
      ⟨-0.02 * sign v.x * v.x ^ 2, -0.02 * sign v.y * v.y ^ 2,
        -0.02 * sign v.z * v.z ^ 2⟩ ∧
    updateFriction fr v 1 = 0 := by
  subst hrb
  refine ⟨fun b => ?_, rfl, ?_⟩
  · simp [prePhysicsWrench]
  · simp [updateFriction, hfr]

/-- Witness for `wrench_force_formula` at a concrete non-reset
environment. -/
theorem wrench_force_formula_witness :
    (0 : ℤ) = 0 ∧ initialFriction 1 = 0 ∧
    ((∀ b, (prePhysicsWrench (fun _ => ⟨1, 2, 3⟩) ⟨4, 5, 6⟩
        initialFriction ⟨1, -1, 0⟩ 0).force b =
      (fun _ => (⟨1, 2, 3⟩ : Vec3)) b +
        updateFriction initialFriction ⟨1, -1, 0⟩ b) ∧
    updateFriction initialFriction ⟨1, -1, 0⟩ 0 =
      ⟨-0.02 * sign 1 * 1 ^ 2, -0.02 * sign (-1) * (-1) ^ 2,
        -0.02 * sign 0 * 0 ^ 2⟩ ∧
    updateFriction initialFriction ⟨1, -1, 0⟩ 1 = 0) :=
  ⟨rfl, rfl,
   wrench_force_formula (fun _ => ⟨1, 2, 3⟩) ⟨4, 5, 6⟩ initialFriction
     ⟨1, -1, 0⟩ 0 rfl rfl⟩

/-! ### List helpers for `torch.unique` -/

theorem insertSorted_perm (x : ℤ) (l : List ℤ) :
    List.Perm (insertSorted x l) (x :: l) := by
  induction l with
  | nil => exact List.Perm.refl _
  | cons y ys ih =>
    unfold insertSorted
    split
    · exact List.Perm.refl _
    · exact (ih.cons y).trans (List.Perm.swap x y ys)

theorem sortInts_perm (l : List ℤ) : List.Perm (sortInts l) l := by
  induction l with
  | nil => exact List.Perm.refl _
  | cons y ys ih =>
    exact (insertSorted_perm y (sortInts ys)).trans (ih.cons y)

theorem torchUnique_nodup (l : List ℤ) : (torchUnique l).Nodup :=
  (sortInts_perm l.dedup).nodup_iff.mpr l.nodup_dedup

theorem mem_torchUnique (l : List ℤ) (x : ℤ) : x ∈ torchUnique l ↔ x ∈ l := by
  rw [torchUnique, (sortInts_perm l.dedup).mem_iff, List.mem_dedup]

/-! ### Pointwise views of the policy operations -/

theorem set_targets_target (st : SimState) (ids : List ℕ) (r : ℕ → Draw)
    (e : ℕ) :
    (set_targets st ids r).1.target e =
      if e ∈ ids then drawnTarget (r e) else st.target e := rfl

theorem set_targets_marker (st : SimState) (ids : List ℕ) (r : ℕ → Draw)
    (e : ℕ) :
    (set_targets st ids r).1.marker e =
      if e ∈ ids then (set_targets st ids r).1.target e
      else st.marker e := rfl

theorem set_targets_root (st : SimState) (ids : List ℕ) (r : ℕ → Draw) :
    (set_targets st ids r).1.root = st.root := rfl

theorem set_targets_initRoot (st : SimState) (ids : List ℕ) (r : ℕ → Draw) :
    (set_targets st ids r).1.initRoot = st.initRoot := rfl

theorem set_targets_resetBuf (st : SimState) (ids : List ℕ) (r : ℕ → Draw) :
    (set_targets st ids r).1.resetBuf = st.resetBuf := rfl

theorem set_targets_progressBuf (st : SimState) (ids : List ℕ)
    (r : ℕ → Draw) :
    (set_targets st ids r).1.progressBuf = st.progressBuf := rfl

theorem set_targets_snd (st : SimState) (ids : List ℕ) (r : ℕ → Draw) :
    (set_targets st ids r).2 = ids.map markerActorIndex := rfl

theorem reset_idx_target (st : SimState) (ids : List ℕ) (r : ℕ → Draw)
    (rr : ℕ → Vec3) (e : ℕ) :
    (reset_idx st ids r rr).1.target e =
      if e ∈ ids then drawnTarget (r e) else st.target e := rfl

theorem reset_idx_marker (st : SimState) (ids : List ℕ) (r : ℕ → Draw)
    (rr : ℕ → Vec3) (e : ℕ) :
    (reset_idx st ids r rr).1.marker e =
      if e ∈ ids then (reset_idx st ids r rr).1.target e
      else st.marker e := rfl

theorem reset_idx_root (st : SimState) (ids : List ℕ) (r : ℕ → Draw)
    (rr : ℕ → Vec3) (e : ℕ) :
    (reset_idx st ids r rr).1.root e =
      if e ∈ ids then
        { st.initRoot e with
          pos := ⟨(st.initRoot e).pos.x + torch_rand_float (-0) 0 (rr e).x,
                  (st.initRoot e).pos.y + torch_rand_float (-0) 0 (rr e).y,
                  (st.initRoot e).pos.z + torch_rand_float (-0) 0 (rr e).z⟩ }
      else st.root e := rfl

theorem reset_idx_initRoot (st : SimState) (ids : List ℕ) (r : ℕ → Draw)
    (rr : ℕ → Vec3) :
    (reset_idx st ids r rr).1.initRoot = st.initRoot := rfl

theorem reset_idx_resetBuf (st : SimState) (ids : List ℕ) (r : ℕ → Draw)
    (rr : ℕ → Vec3) (e : ℕ) :
    (reset_idx st ids r rr).1.resetBuf e =
      if e ∈ ids then 0 else st.resetBuf e := rfl

theorem reset_idx_progressBuf (st : SimState) (ids : List ℕ) (r : ℕ → Draw)
    (rr : ℕ → Vec3) (e : ℕ) :
    (reset_idx st ids r rr).1.progressBuf e =
      if e ∈ ids then 0 else st.progressBuf e := rfl

theorem reset_idx_snd (st : SimState) (ids : List ℕ) (r : ℕ → Draw)
    (rr : ℕ → Vec3) :
    (reset_idx st ids r rr).2 =
      torchUnique (ids.map markerActorIndex ++ ids.map droneActorIndex) := rfl

/-- The degenerate perturbation `torch_rand_float(-0, 0, ...)` is `0`
for every sample. -/
theorem torch_rand_float_degenerate (x : ℚ) : torch_rand_float (-0) 0 x = 0 := by
  simp [torch_rand_float]

/-- Lemma: `reset_idx` restores the stored initial root state exactly: the
random perturbation added to the position is drawn from `[-0, 0]`. -/
theorem reset_idx_root_mem (st : SimState) (ids : List ℕ) (r : ℕ → Draw)
    (rr : ℕ → Vec3) (e : ℕ) (he : e ∈ ids) :
    (reset_idx st ids r rr).1.root e = st.initRoot e := by
  rw [reset_idx_root, if_pos he]
  simp only [torch_rand_float_degenerate, add_zero]

/-! ### Sample states for witnesses and counterexamples -/

/-- A concrete initial root state: the drone's default pose at height
`1` with identity attitude and zero velocities. -/
def sampleRoot : RootState :=
  { pos := ⟨0, 0, 1⟩, quat := ⟨0, 0, 0, 1⟩, linvel := 0, angvel := 0 }

/-- A concrete simulation state with one environment mid-episode whose
reset flag has been set. -/
def sampleState : SimState :=
  { target := fun _ => ⟨0, 0, 1⟩
    marker := fun _ => ⟨0, 0, 1⟩
    root := fun _ => sampleRoot
    initRoot := fun _ => sampleRoot
    resetBuf := fun _ => 1
    progressBuf := fun _ => 7 }

/-- Like `sampleState` but with the progress counter at `500`, so the
periodic target re-draw (`progress % 500 == 0`) coincides with the
reset. -/
def overlapState : SimState :=
  { sampleState with progressBuf := fun _ => 500 }

/-- C5: after a `set_targets` call whose uniform samples lie in
`[0, 1)`, every assigned index has `target.x ∈ [0, 0.001)`,
`target.y ∈ [0, 0.001)`, `target.z ∈ [1, 1.01)`, and its visualization
marker position equals its new target position. -/
theorem set_targets_range_and_marker (st : SimState) (env_ids : List ℕ)
    (r : ℕ → Draw) (e : ℕ) (he : e ∈ env_ids)
    (hx : 0 ≤ (r e).rx ∧ (r e).rx < 1) (hy : 0 ≤ (r e).ry ∧ (r e).ry < 1)
    (hz : 0 ≤ (r e).rz ∧ (r e).rz < 1) :
    (0 ≤ ((set_targets st env_ids r).1.target e).x ∧
      ((set_targets st env_ids r).1.target e).x < 0.001) ∧
    (0 ≤ ((set_targets st env_ids r).1.target e).y ∧
      ((set_targets st env_ids r).1.target e).y < 0.001) ∧
    (1 ≤ ((set_targets st env_ids r).1.target e).z ∧
      ((set_targets st env_ids r).1.target e).z < 1.01) ∧
    (set_targets st env_ids r).1.marker e =
      (set_targets st env_ids r).1.target e := by
  have ht : (set_targets st env_ids r).1.target e = drawnTarget (r e) := by
    rw [set_targets_target, if_pos he]
  have hm : (set_targets st env_ids r).1.marker e =
      (set_targets st env_ids r).1.target e := by
    rw [set_targets_marker, if_pos he]
  rw [ht]
  obtain ⟨hx0, hx1⟩ := hx
  obtain ⟨hy0, hy1⟩ := hy
  obtain ⟨hz0, hz1⟩ := hz
  unfold drawnTarget
  refine ⟨⟨?_, ?_⟩, ⟨?_, ?_⟩, ⟨?_, ?_⟩, hm.trans ht⟩ <;> simp only [] <;>
    nlinarith

/-- Witness for `set_targets_range_and_marker` with every uniform
sample at `1/2`. -/
theorem set_targets_range_and_marker_witness :
    0 ∈ [0] ∧
    (0 ≤ ((set_targets sampleState [0] (fun _ => ⟨1/2, 1/2, 1/2⟩)).1.target
        0).x ∧
      ((set_targets sampleState [0] (fun _ => ⟨1/2, 1/2, 1/2⟩)).1.target
        0).x < 0.001) ∧
    (0 ≤ ((set_targets sampleState [0] (fun _ => ⟨1/2, 1/2, 1/2⟩)).1.target
        0).y ∧
      ((set_targets sampleState [0] (fun _ => ⟨1/2, 1/2, 1/2⟩)).1.target
        0).y < 0.001) ∧
    (1 ≤ ((set_targets sampleState [0] (fun _ => ⟨1/2, 1/2, 1/2⟩)).1.target
        0).z ∧
      ((set_targets sampleState [0] (fun _ => ⟨1/2, 1/2, 1/2⟩)).1.target
        0).z < 1.01) ∧
    (set_targets sampleState [0] (fun _ => ⟨1/2, 1/2, 1/2⟩)).1.marker 0 =
      (set_targets sampleState [0] (fun _ => ⟨1/2, 1/2, 1/2⟩)).1.target 0 :=
  ⟨List.mem_singleton.mpr rfl,
   set_targets_range_and_marker sampleState [0] (fun _ => ⟨1/2, 1/2, 1/2⟩) 0
     (List.mem_singleton.mpr rfl) (by norm_num) (by norm_num) (by norm_num)⟩

/-- C6: `reset_idx` copies the stored initial root state back exactly
(the random perturbation range is `[-0, 0]`), re-draws the target,
zeroes the reset flag and the progress counter of every given index,
and returns the duplicate-free union of the affected marker and drone
actor indices. -/
theorem reset_idx_spec (st : SimState) (env_ids : List ℕ) (r : ℕ → Draw)
    (rr : ℕ → Vec3) (e : ℕ) (he : e ∈ env_ids) :
    (reset_idx st env_ids r rr).1.root e = st.initRoot e ∧
    (reset_idx st env_ids r rr).1.target e = drawnTarget (r e) ∧
    (reset_idx st env_ids r rr).1.resetBuf e = 0 ∧
    (reset_idx st env_ids r rr).1.progressBuf e = 0 ∧
    ((reset_idx st env_ids r rr).2).Nodup ∧
    (∀ x : ℤ, x ∈ (reset_idx st env_ids r rr).2 ↔
      x ∈ env_ids.map markerActorIndex ∨ x ∈ env_ids.map droneActorIndex) := by
  refine ⟨reset_idx_root_mem st env_ids r rr e he, ?_, ?_, ?_, ?_, ?_⟩
  · rw [reset_idx_target, if_pos he]
  · rw [reset_idx_resetBuf, if_pos he]
  · rw [reset_idx_progressBuf, if_pos he]
  · rw [reset_idx_snd]
    exact torchUnique_nodup _
  · intro x
    rw [reset_idx_snd, mem_torchUnique, List.mem_append]

/-- Witness for `reset_idx_spec` on the single-environment sample
state. -/
theorem reset_idx_spec_witness :
    0 ∈ [0] ∧
    ((reset_idx sampleState [0] (fun _ => ⟨1/2, 1/2, 1/2⟩)
        (fun _ => ⟨1/2, 1/2, 1/2⟩)).1.root 0 = sampleState.initRoot 0 ∧
    (reset_idx sampleState [0] (fun _ => ⟨1/2, 1/2, 1/2⟩)
        (fun _ => ⟨1/2, 1/2, 1/2⟩)).1.target 0 =
      drawnTarget ⟨1/2, 1/2, 1/2⟩ ∧
    (reset_idx sampleState [0] (fun _ => ⟨1/2, 1/2, 1/2⟩)
        (fun _ => ⟨1/2, 1/2, 1/2⟩)).1.resetBuf 0 = 0 ∧
    (reset_idx sampleState [0] (fun _ => ⟨1/2, 1/2, 1/2⟩)
        (fun _ => ⟨1/2, 1/2, 1/2⟩)).1.progressBuf 0 = 0 ∧
    ((reset_idx sampleState [0] (fun _ => ⟨1/2, 1/2, 1/2⟩)
        (fun _ => ⟨1/2, 1/2, 1/2⟩)).2).Nodup ∧
    (∀ x : ℤ, x ∈ (reset_idx sampleState [0] (fun _ => ⟨1/2, 1/2, 1/2⟩)
        (fun _ => ⟨1/2, 1/2, 1/2⟩)).2 ↔
      x ∈ [0].map markerActorIndex ∨ x ∈ [0].map droneActorIndex)) :=
  ⟨List.mem_singleton.mpr rfl,
   reset_idx_spec sampleState [0] (fun _ => ⟨1/2, 1/2, 1/2⟩)
     (fun _ => ⟨1/2, 1/2, 1/2⟩) 0 (List.mem_singleton.mpr rfl)⟩

/-- C8: with the same random draws (same seed), applying the target
policy, or the reset policy, a second time to the same indices changes
nothing: the double application returns exactly the single
application's state, target and actor-index list. -/
theorem policy_idempotent (st : SimState) (env_ids : List ℕ)
    (r : ℕ → Draw) (rr : ℕ → Vec3) :
    set_targets (set_targets st env_ids r).1 env_ids r =
      set_targets st env_ids r ∧
    reset_idx (reset_idx st env_ids r rr).1 env_ids r rr =
      reset_idx st env_ids r rr := by
  constructor
  · rw [Prod.ext_iff]
    refine ⟨?_, rfl⟩
    apply SimState.ext
    · funext e
      by_cases he : e ∈ env_ids <;>
        simp [set_targets_target, he]
    · funext e
      by_cases he : e ∈ env_ids <;>
        simp [set_targets_marker, set_targets_target, he]
    · rfl
    · rfl
    · rfl
    · rfl
  · rw [Prod.ext_iff]
    refine ⟨?_, rfl⟩
    apply SimState.ext
    · funext e
      by_cases he : e ∈ env_ids <;>
        simp [reset_idx_target, he]
    · funext e
      by_cases he : e ∈ env_ids <;>
        simp [reset_idx_marker, reset_idx_target, he]
    · funext e
      by_cases he : e ∈ env_ids <;>
        simp [reset_idx_root, reset_idx_initRoot, he]
    · rfl
    · funext e
      by_cases he : e ∈ env_ids <;>
        simp [reset_idx_resetBuf, he]
    · funext e
      by_cases he : e ∈ env_ids <;>
        simp [reset_idx_progressBuf, he]

/-! ### C4: per-termination-event bookkeeping -/

theorem mem_setTargetIds (numEnvs : ℕ) (st : SimState) (e : ℕ) :
    e ∈ setTargetIds numEnvs st ↔
      e < numEnvs ∧ st.progressBuf e % 500 = 0 := by
  simp [setTargetIds, List.mem_filter, List.mem_range]

theorem mem_resetEnvIds (numEnvs : ℕ) (st : SimState) (e : ℕ) :
    e ∈ resetEnvIds numEnvs st ↔ e < numEnvs ∧ st.resetBuf e ≠ 0 := by
  simp [resetEnvIds, List.mem_filter, List.mem_range]

theorem callCount_singleton (ids : List ℕ) (e : ℕ) :
    callCount [ids] e = if e ∈ ids then 1 else 0 := by
  by_cases h : e ∈ ids <;> simp [callCount, List.countP_cons, h]

theorem callCount_append (t1 t2 : List (List ℕ)) (e : ℕ) :
    callCount (t1 ++ t2) e = callCount t1 e + callCount t2 e := by
  simp [callCount]

/-- C4 counterexample: with one environment whose reset flag is set
while its progress counter sits at a multiple of 500 (reachable, e.g.,
when a distance violation is detected at step 500 of an episode), the
reset-resolution phase draws the environment's target twice in the same
step — once in the periodic branch and once inside `reset_idx` — so
"exactly one target assignment … no second target draw" fails. -/
theorem pre_physics_double_draw_counterexample :
    overlapState.resetBuf 0 ≠ 0 ∧
    callCount (prePhysicsResets 1 overlapState (fun _ => ⟨0, 0, 0⟩)
      (fun _ => ⟨0, 0, 0⟩) (fun _ => ⟨0, 0, 0⟩)).2.1 0 = 2 := by
  constructor
  · decide
  · decide

/-- C4 (amended): for every environment whose reset flag is set at the
start of the step, exactly one root-state reset happens, the root state
is restored to the stored initial state, the reset flag and progress
are cleared, and the final target is the reset branch's draw — but the
number of target assignments is one only when the progress counter is
not at a multiple of 500; when it is, the periodic branch draws a
first target that the reset branch then overwrites, for two draws in
the same step. -/
theorem pre_physics_termination_spec (numEnvs : ℕ) (st : SimState)
    (r1 r2 : ℕ → Draw) (rr : ℕ → Vec3) (e : ℕ) (he : e < numEnvs)
    (hrb : st.resetBuf e ≠ 0) :
    callCount (prePhysicsResets numEnvs st r1 r2 rr).2.2 e = 1 ∧
    (prePhysicsResets numEnvs st r1 r2 rr).1.root e = st.initRoot e ∧
    (prePhysicsResets numEnvs st r1 r2 rr).1.target e =
      drawnTarget (r2 e) ∧
    (prePhysicsResets numEnvs st r1 r2 rr).1.resetBuf e = 0 ∧
    (prePhysicsResets numEnvs st r1 r2 rr).1.progressBuf e = 0 ∧
    callCount (prePhysicsResets numEnvs st r1 r2 rr).2.1 e =
      (if st.progressBuf e % 500 = 0 then 2 else 1) := by
  have hmemr : e ∈ resetEnvIds numEnvs st :=
    (mem_resetEnvIds numEnvs st e).mpr ⟨he, hrb⟩
  have hlenr : (resetEnvIds numEnvs st).length > 0 :=
    List.length_pos.mpr (List.ne_nil_of_mem hmemr)
  simp only [prePhysicsResets, if_pos hlenr]
  by_cases hs : (setTargetIds numEnvs st).length > 0
  · rw [if_pos hs, if_pos hs]
    refine ⟨?_, ?_, ?_, ?_, ?_, ?_⟩
    · rw [callCount_singleton, if_pos hmemr]
    · rw [reset_idx_root_mem _ _ _ _ _ hmemr, set_targets_initRoot]
    · rw [reset_idx_target, if_pos hmemr]
    · rw [reset_idx_resetBuf, if_pos hmemr]
    · rw [reset_idx_progressBuf, if_pos hmemr]
    · rw [callCount_append, callCount_singleton, callCount_singleton,
        if_pos hmemr]
      by_cases hp : st.progressBuf e % 500 = 0
      · rw [if_pos ((mem_setTargetIds numEnvs st e).mpr ⟨he, hp⟩),
          if_pos hp]
      · rw [if_neg (fun hmem =>
          hp ((mem_setTargetIds numEnvs st e).mp hmem).2), if_neg hp]
  · rw [if_neg hs, if_neg hs]
    have hnp : ¬st.progressBuf e % 500 = 0 := fun hp =>
      hs (List.length_pos.mpr (List.ne_nil_of_mem
        ((mem_setTargetIds numEnvs st e).mpr ⟨he, hp⟩)))
    refine ⟨?_, ?_, ?_, ?_, ?_, ?_⟩
    · rw [callCount_singleton, if_pos hmemr]
    · rw [reset_idx_root_mem _ _ _ _ _ hmemr]
    · rw [reset_idx_target, if_pos hmemr]
    · rw [reset_idx_resetBuf, if_pos hmemr]
    · rw [reset_idx_progressBuf, if_pos hmemr]
    · rw [List.nil_append, callCount_singleton, if_pos hmemr, if_neg hnp]

/-- Witness for `pre_physics_termination_spec` on the one-environment
overlap state. -/
theorem pre_physics_termination_spec_witness :
    (0 : ℕ) < 1 ∧ overlapState.resetBuf 0 ≠ 0 ∧
    (callCount (prePhysicsResets 1 overlapState (fun _ => ⟨0, 0, 0⟩)
        (fun _ => ⟨0, 0, 0⟩) (fun _ => ⟨0, 0, 0⟩)).2.2 0 = 1 ∧
    (prePhysicsResets 1 overlapState (fun _ => ⟨0, 0, 0⟩)
        (fun _ => ⟨0, 0, 0⟩) (fun _ => ⟨0, 0, 0⟩)).1.root 0 =
      overlapState.initRoot 0 ∧
    (prePhysicsResets 1 overlapState (fun _ => ⟨0, 0, 0⟩)
        (fun _ => ⟨0, 0, 0⟩) (fun _ => ⟨0, 0, 0⟩)).1.target 0 =
      drawnTarget ⟨0, 0, 0⟩ ∧
    (prePhysicsResets 1 overlapState (fun _ => ⟨0, 0, 0⟩)
        (fun _ => ⟨0, 0, 0⟩) (fun _ => ⟨0, 0, 0⟩)).1.resetBuf 0 = 0 ∧
    (prePhysicsResets 1 overlapState (fun _ => ⟨0, 0, 0⟩)
        (fun _ => ⟨0, 0, 0⟩) (fun _ => ⟨0, 0, 0⟩)).1.progressBuf 0 = 0 ∧
    callCount (prePhysicsResets 1 overlapState (fun _ => ⟨0, 0, 0⟩)
        (fun _ => ⟨0, 0, 0⟩) (fun _ => ⟨0, 0, 0⟩)).2.1 0 =
      (if overlapState.progressBuf 0 % 500 = 0 then 2 else 1)) :=
  ⟨by decide, by decide,
   pre_physics_termination_spec 1 overlapState (fun _ => ⟨0, 0, 0⟩)
     (fun _ => ⟨0, 0, 0⟩) (fun _ => ⟨0, 0, 0⟩) 0 (by decide) (by decide)⟩

end Crazyflie
